import Mathlib

/-!
Shallow embedding of the Urho3D character-demo sample (Character logic
component and MainScene application) and proofs of the specification
claims about it.

Engine floating-point values are modelled by exact rationals; engine
square roots (vector normalization, lengths) are modelled by a rational
stand-in that is exact on perfect squares.  Engine quaternion
construction from an (angle, axis) pair is transcendental, so the model
functions that need it take the constructor as an explicit argument;
quaternion multiplication and vector rotation are rational and are
modelled exactly.
-/

namespace Urho

/-- Three-component vector, mirroring Urho3D Vector3 with rational
components standing in for floats. -/
structure Vec3 where
  x : ℚ
  y : ℚ
  z : ℚ
deriving DecidableEq, Repr

namespace Vec3

def add (a b : Vec3) : Vec3 := ⟨a.x + b.x, a.y + b.y, a.z + b.z⟩

def smul (q : ℚ) (a : Vec3) : Vec3 := ⟨q * a.x, q * a.y, q * a.z⟩

def neg (a : Vec3) : Vec3 := ⟨-a.x, -a.y, -a.z⟩

def cross (a b : Vec3) : Vec3 :=
  ⟨a.y * b.z - a.z * b.y, a.z * b.x - a.x * b.z, a.x * b.y - a.y * b.x⟩

def lengthSquared (a : Vec3) : ℚ := a.x * a.x + a.y * a.y + a.z * a.z

def ZERO : Vec3 := ⟨0, 0, 0⟩
def FORWARD : Vec3 := ⟨0, 0, 1⟩
def BACK : Vec3 := ⟨0, 0, -1⟩
def LEFT : Vec3 := ⟨-1, 0, 0⟩
def RIGHT : Vec3 := ⟨1, 0, 0⟩
def UP : Vec3 := ⟨0, 1, 0⟩

end Vec3

/-- Rational stand-in for sqrtf: exact when numerator and denominator
are perfect squares (the only case the claims depend on). -/
def ratSqrt (q : ℚ) : ℚ :=
  (Nat.sqrt q.num.toNat : ℚ) / (Nat.sqrt q.den : ℚ)

/-- Vector length, modelling Urho3D Vector3::Length() = sqrtf(LengthSquared()). -/
def Vec3.length (a : Vec3) : ℚ := ratSqrt a.lengthSquared

/-- Vector normalization, modelling Urho3D Vector3::Normalize(): scale by
the inverse length when the squared length is positive (and not already
one, in which case the scale factor is one and the result agrees). -/
def Vec3.normalize (a : Vec3) : Vec3 :=
  if 0 < a.lengthSquared then Vec3.smul (1 / ratSqrt a.lengthSquared) a else a

/-- Quaternion, mirroring Urho3D Quaternion with rational components. -/
structure Quat where
  w : ℚ
  x : ℚ
  y : ℚ
  z : ℚ
deriving DecidableEq, Repr

namespace Quat

/-- Hamilton product, modelling Urho3D Quaternion::operator*(Quaternion). -/
def mul (a b : Quat) : Quat :=
  ⟨a.w * b.w - a.x * b.x - a.y * b.y - a.z * b.z,
   a.w * b.x + a.x * b.w + a.y * b.z - a.z * b.y,
   a.w * b.y - a.x * b.z + a.y * b.w + a.z * b.x,
   a.w * b.z + a.x * b.y - a.y * b.x + a.z * b.w⟩

/-- Rotation of a vector by a (unit) quaternion, modelling Urho3D
Quaternion::operator*(Vector3): v + 2 * (uv * w + uuv) with
uv = qvec x v, uuv = qvec x uv. -/
def rotate (q : Quat) (v : Vec3) : Vec3 :=
  let qv : Vec3 := ⟨q.x, q.y, q.z⟩
  let uv := qv.cross v
  let uuv := qv.cross uv
  v.add (Vec3.smul 2 ((Vec3.smul q.w uv).add uuv))

end Quat

/-- Clamp, modelling Urho3D Clamp(value, min, max). -/
def clampQ (value lo hi : ℚ) : ℚ :=
  if value < lo then lo else if value > hi then hi else value

/-- Modelled from the spec: the control-bit and tuning constants are
declared in Character.h, which is not among the provided sources.  The
spec records only that there are movement controls, separate ground/air
force magnitudes, a brake force, a jump impulse and an airborne-time
threshold; the control bits are taken as the five distinct low bits and
the magnitudes as the sample's tuning values.  No claim depends on the
numeric values, only on the bits being distinct. -/
def CTRL_FORWARD : Nat := 1
def CTRL_BACK : Nat := 2
def CTRL_LEFT : Nat := 4
def CTRL_RIGHT : Nat := 8
def CTRL_JUMP : Nat := 16

def MOVE_FORCE : ℚ := 8 / 10
def INAIR_MOVE_FORCE : ℚ := 2 / 100
def BRAKE_FORCE : ℚ := 2 / 10
def JUMP_FORCE : ℚ := 7
def INAIR_THRESHOLD_TIME : ℚ := 1 / 10

def CAMERA_INITIAL_DIST : ℚ := 5
def CAMERA_MIN_DIST : ℚ := 1
def CAMERA_MAX_DIST : ℚ := 20

/-- Controls state, mirroring Urho3D Controls: a button bitmask plus the
yaw and pitch angles. -/
structure Controls where
  buttons : Nat
  yaw : ℚ
  pitch : ℚ
deriving DecidableEq, Repr

namespace Controls

/-- Controls::IsDown(flag): true when any bit of the flag is set. -/
def IsDown (c : Controls) (flag : Nat) : Bool := c.buttons &&& flag ≠ 0

/-- Controls::Set(flags, down): or the flags in when down, clear them
otherwise (buttons &= ~flags, written without a fixed word size). -/
def Set (c : Controls) (flags : Nat) (down : Bool) : Controls :=
  if down then { c with buttons := c.buttons ||| flags }
  else { c with buttons := c.buttons ^^^ (c.buttons &&& flags) }

end Controls

/-- Character component state: the controls plus the fields registered
as attributes in Character::RegisterObject and initialized in the
constructor. -/
structure Character where
  controls : Controls
  onGround : Bool
  okToJump : Bool
  onLeftLane : Bool
  onMiddleLane : Bool
  onRightLane : Bool
  inAirTimer : ℚ
deriving DecidableEq, Repr

/-- Default character state: constructor initializers of Character
(onGround_ false, okToJump_ true, inAirTimer_ 0) together with the
attribute defaults registered in Character::RegisterObject (yaw 0,
pitch 0, lanes false/true/false). -/
def Character.defaults : Character :=
  { controls := { buttons := 0, yaw := 0, pitch := 0 }
    onGround := false
    okToJump := true
    onLeftLane := false
    onMiddleLane := true
    onRightLane := false
    inAirTimer := 0 }

/-- One collision contact as decoded from the NodeCollision event's
contact buffer: position, normal, distance, impulse. -/
structure Contact where
  position : Vec3
  normal : Vec3
  distance : ℚ
  impulse : ℚ
deriving DecidableEq, Repr

/-- Character::HandleNodeCollision: walk the contact buffer and set
onGround_ when a contact lies below node centre + 1 and has a mostly
vertical normal (|normal.y| > 0.75). -/
def Character.HandleNodeCollision (nodePosition : Vec3)
    (contacts : List Contact) (ch : Character) : Character :=
  contacts.foldl
    (fun c contact =>
      if contact.position.y < nodePosition.y + 1 then
        if 3 / 4 < |contact.normal.y| then { c with onGround := true } else c
      else c)
    ch

/-- Per-step inputs that Character::FixedUpdate reads from the engine:
the fixed time step, the node's current rotation, the rigid body's
linear velocity, and the UI root height used to position the text. -/
structure FixedEnv where
  timeStep : ℚ
  rotation : Quat
  velocity : Vec3
  uiRootHeight : Int
deriving DecidableEq, Repr

/-- Observable side effects of one Character::FixedUpdate call: UI text
elements created on and removed from the UI root, the impulses applied
to the rigid body in order, whether the jump impulse was among them,
and the walk-animation commands. -/
structure FixedEffects where
  textsCreated : Nat
  textsRemoved : Nat
  impulses : List Vec3
  jumpApplied : Bool
  walkPlayed : Bool
  walkSpeed : ℚ
deriving DecidableEq, Repr

/-- Character::FixedUpdate: create the debug text, update the in-air
timer, read the controls into a movement direction, normalize it when
nonzero, apply the movement impulse (ground or in-air magnitude), and
when soft-grounded apply the braking impulse and handle the jump with
its release debounce; finally select the walk animation and reset the
grounded flag. -/
def Character.FixedUpdate (env : FixedEnv) (ch : Character) :
    Character × FixedEffects :=
  let inAirTimer1 : ℚ := if !ch.onGround then ch.inAirTimer + env.timeStep else 0
  let softGrounded : Bool := inAirTimer1 < INAIR_THRESHOLD_TIME
  let rot := env.rotation
  let planeVelocity : Vec3 := ⟨env.velocity.x, 0, env.velocity.z⟩
  let moveDir0 : Vec3 := Vec3.ZERO
  let moveDir1 := if ch.controls.IsDown CTRL_FORWARD then moveDir0.add Vec3.FORWARD else moveDir0
  let moveDir2 := if ch.controls.IsDown CTRL_RIGHT then moveDir1.add Vec3.RIGHT else moveDir1
  let moveDir3 := if ch.controls.IsDown CTRL_LEFT then moveDir2.add Vec3.LEFT else moveDir2
  let moveDir := if 0 < moveDir3.lengthSquared then moveDir3.normalize else moveDir3
  let moveImpulse := Vec3.smul (if softGrounded then MOVE_FORCE else INAIR_MOVE_FORCE) (rot.rotate moveDir)
  let brakeImpulse := Vec3.smul BRAKE_FORCE planeVelocity.neg
  let jumpApplied := softGrounded && ch.controls.IsDown CTRL_JUMP && ch.okToJump
  let okToJump1 :=
    if softGrounded then
      if ch.controls.IsDown CTRL_JUMP then
        if ch.okToJump then false else ch.okToJump
      else true
    else ch.okToJump
  let impulses :=
    moveImpulse ::
      (if softGrounded then
        brakeImpulse ::
          (if ch.controls.IsDown CTRL_JUMP && ch.okToJump then
            [Vec3.smul JUMP_FORCE Vec3.UP]
          else [])
      else [])
  let walkPlayed := softGrounded && !(decide (moveDir = Vec3.ZERO))
  ({ ch with inAirTimer := inAirTimer1, okToJump := okToJump1, onGround := false },
   { textsCreated := 1
     textsRemoved := 0
     impulses := impulses
     jumpApplied := jumpApplied
     walkPlayed := walkPlayed
     walkSpeed := planeVelocity.length * (3 / 10) })

/-- Character::FixedUpdate as actually entered: the rigid-body and
animation-controller components are fetched with GetComponent and then
dereferenced without any null check, so a missing component means the
update cannot run (models the crash). -/
def Character.FixedUpdateChecked (body animCtrl : Option Unit)
    (env : FixedEnv) (ch : Character) : Option (Character × FixedEffects) :=
  match body, animCtrl with
  | some _, some _ => some (ch.FixedUpdate env)
  | _, _ => none

/-- The soft-grounded test of Character::FixedUpdate as a function of
the pre-state: the in-air timer after its update is below the
threshold. -/
def softGroundedOf (env : FixedEnv) (ch : Character) : Bool :=
  (if !ch.onGround then ch.inAirTimer + env.timeStep else 0) < INAIR_THRESHOLD_TIME

/-- One element of a fixed-update trace: the control buttons the update
handler has set before this physics step, and the engine inputs of the
step. -/
structure FixedStep where
  buttons : Nat
  env : FixedEnv

/-- Overwrite the control buttons, modelling MainScene::HandleUpdate
setting the character's controls between physics steps. -/
def withButtons (b : Nat) (ch : Character) : Character :=
  { ch with controls := { ch.controls with buttons := b } }

/-- Run one trace step: set the step's controls, then run FixedUpdate. -/
def applyStep (s : FixedStep) (ch : Character) : Character :=
  (Character.FixedUpdate s.env (withButtons s.buttons ch)).1

/-- Character state before step n of a trace. -/
def stateAt (steps : ℕ → FixedStep) (ch : Character) : ℕ → Character
  | 0 => ch
  | n + 1 => applyStep (steps n) (stateAt steps ch n)

/-- Whether the jump impulse is applied in step n of a trace. -/
def firedAt (steps : ℕ → FixedStep) (ch : Character) (n : ℕ) : Bool :=
  (Character.FixedUpdate (steps n).env
    (withButtons (steps n).buttons (stateAt steps ch n))).2.jumpApplied

/-- Whether step n of a trace is soft-grounded with the jump control
released (the only situation in which okToJump_ becomes true again). -/
def releasedAt (steps : ℕ → FixedStep) (ch : Character) (n : ℕ) : Bool :=
  softGroundedOf (steps n).env (withButtons (steps n).buttons (stateAt steps ch n)) &&
  !((withButtons (steps n).buttons (stateAt steps ch n)).controls.IsDown CTRL_JUMP)

/-- Scene snapshot path used by both debug key bindings in
MainScene::HandleUpdate, relative to the program directory prefix
returned by the engine. -/
def scenePath : String := "Data/Scenes/CharacterDemo.xml"

/-- Inputs MainScene::HandleUpdate reads from the engine: the touch
utility pointer and its gyroscope flag, the platform touch flag, UI
keyboard focus, key states and key presses, the per-touch
touched-element flags, the camera component lookup on the camera node,
and the outcome of re-finding the Jack node after a scene load (outer
option: node found; inner option: its Character component). -/
structure UpdateEnv where
  touchActive : Bool
  useGyroscope : Bool
  touchEnabled : Bool
  focusElement : Bool
  keyA : Bool
  keyD : Bool
  keySpace : Bool
  keyPressG : Bool
  keyPressF5 : Bool
  keyPressF7 : Bool
  touchedElements : List Bool
  camera : Option Unit
  jackNode : Option (Option Character)

/-- Observable side effects of one MainScene::HandleUpdate call:
whether the gyroscope flag was toggled, the scene-file writes and
reads, and the yaw with which the character node's rotation was set at
the end of the control update. -/
structure UpdateEffects where
  gyroToggled : Bool
  savedSceneTo : Option String
  loadedSceneFrom : Option String
  rotationSetYaw : Option ℚ
deriving DecidableEq, Repr

/-- Effects of a HandleUpdate call that did not reach the rotation,
save or load statements. -/
def UpdateEffects.none : UpdateEffects :=
  { gyroToggled := false, savedSceneTo := Option.none,
    loadedSceneFrom := Option.none, rotationSetYaw := Option.none }

/-- MainScene::HandleUpdate.  The first argument models
Touch::UpdateTouches (the Touch utility's source is not among the
provided files), which is handed the character's controls when the
touch utility is active.  With a live character the previous controls
are cleared; with no focused UI element the left/right/jump controls
are read from the A/D/Space keys (left/right only when no gyroscope is
in use; the W/S reads are commented out), an empty-space touch with a
null camera component returns early, and otherwise CTRL_FORWARD is set
unconditionally, the pitch is clamped to [-80, 80], the node rotation
is set from the yaw, and the F5/F7 bindings save or load the scene,
reacquiring the character weak pointer after a load. -/
def MainScene.HandleUpdate (updateTouches : Controls → Controls)
    (env : UpdateEnv) (character : Option Character) :
    Option Character × UpdateEffects :=
  match character with
  | Option.none => (Option.none, UpdateEffects.none)
  | some ch =>
    let c1 := ch.controls.Set
      (CTRL_FORWARD ||| CTRL_BACK ||| CTRL_LEFT ||| CTRL_RIGHT ||| CTRL_JUMP) false
    let c2 := if env.touchActive then updateTouches c1 else c1
    if env.focusElement then (some { ch with controls := c2 }, UpdateEffects.none)
    else
      let c3 :=
        if !env.touchActive || !env.useGyroscope then
          (c2.Set CTRL_LEFT env.keyA).Set CTRL_RIGHT env.keyD
        else c2
      let c4 := c3.Set CTRL_JUMP env.keySpace
      if env.touchEnabled && env.touchedElements.any (fun touched => !touched)
          && env.camera.isNone then
        (some { ch with controls := c4 }, UpdateEffects.none)
      else
        let c5 := c4.Set CTRL_FORWARD true
        let c6 := { c5 with pitch := clampQ c5.pitch (-80) 80 }
        let chOut : Option Character :=
          if env.keyPressF7 then
            match env.jackNode with
            | some comp => comp
            | Option.none => Option.none
          else some { ch with controls := c6 }
        (chOut,
         { gyroToggled := env.touchActive && env.keyPressG
           savedSceneTo := if env.keyPressF5 then some scenePath else Option.none
           loadedSceneFrom := if env.keyPressF7 then some scenePath else Option.none
           rotationSetYaw := some c6.yaw })

/-- Inputs MainScene::HandlePostUpdate reads from the engine: the
character node's position and rotation, the world position of the
Bip01_Head child node when that lookup succeeds, the touch utility's
camera distance when active, and the single physics raycast against
collision layer 2 (the hit distance when the result body is
non-null). -/
structure PostEnv where
  charNodePosition : Vec3
  charNodeRotation : Quat
  headNode : Option Vec3
  touchCameraDistance : Option ℚ
  raycastHit : Option ℚ

/-- What MainScene::HandlePostUpdate writes when it runs to completion:
the head look-at target and up vector, the Euler angles of the
authored-axis correction rotation applied after LookAt, and the camera
node's new position and rotation. -/
structure PostResult where
  headWorldTarget : Vec3
  headLookUp : Vec3
  headCorrectionEuler : Vec3
  cameraPosition : Vec3
  cameraRotation : Quat
deriving DecidableEq, Repr

/-- Outcome of a MainScene::HandlePostUpdate call: early return on a
dead character, a crash on the unguarded head-bone dereference, or the
completed writes. -/
inductive PostOutcome where
  | skipped : PostOutcome
  | crash : PostOutcome
  | ok : PostResult → PostOutcome
deriving DecidableEq, Repr

/-- MainScene::HandlePostUpdate.  The first argument models the
engine's angle-axis quaternion constructor (transcendental, hence kept
abstract).  A dead character returns early; the Bip01_Head child
lookup is dereferenced with no null guard; the head target uses the
pitch clamped to [-45, 45]; the camera is placed at aimPoint + rayDir *
rayDistance with the ray distance reduced by the raycast hit only when
the hit body is non-null and then clamped to the camera range, and the
camera rotation is set to dir.  The character itself is returned
untouched: the handler writes no character field. -/
def MainScene.HandlePostUpdate (angleAxis : ℚ → Vec3 → Quat)
    (env : PostEnv) (character : Option Character) :
    Option Character × PostOutcome :=
  match character with
  | Option.none => (Option.none, PostOutcome.skipped)
  | some ch =>
    let rot := env.charNodeRotation
    let dir := rot.mul (angleAxis ch.controls.pitch Vec3.RIGHT)
    match env.headNode with
    | Option.none => (some ch, PostOutcome.crash)
    | some headWorldPos =>
      let limitPitch := clampQ ch.controls.pitch (-45) 45
      let headDir := rot.mul (angleAxis limitPitch ⟨1, 0, 0⟩)
      let headWorldTarget := headWorldPos.add (headDir.rotate ⟨0, 0, 1⟩)
      let aimPoint := env.charNodePosition.add (rot.rotate ⟨0, 17 / 10, 0⟩)
      let rayDir := dir.rotate Vec3.BACK
      let rayDistance0 := env.touchCameraDistance.getD CAMERA_INITIAL_DIST
      let rayDistance1 :=
        match env.raycastHit with
        | some d => min rayDistance0 d
        | Option.none => rayDistance0
      let rayDistance := clampQ rayDistance1 CAMERA_MIN_DIST CAMERA_MAX_DIST
      (some ch,
       PostOutcome.ok
         { headWorldTarget := headWorldTarget
           headLookUp := ⟨0, 1, 0⟩
           headCorrectionEuler := ⟨0, 90, 90⟩
           cameraPosition := aimPoint.add (Vec3.smul rayDistance rayDir)
           cameraRotation := dir })

/-- A contact that Character::HandleNodeCollision counts as ground:
contact position below node centre + 1 with a mostly vertical normal. -/
def groundContact (nodePosition : Vec3) (c : Contact) : Bool :=
  decide (c.position.y < nodePosition.y + 1) && decide (3 / 4 < |c.normal.y|)

lemma handleNodeCollision_eq (nodePosition : Vec3) :
    ∀ (contacts : List Contact) (ch : Character),
      Character.HandleNodeCollision nodePosition contacts ch
        = { ch with onGround := ch.onGround || contacts.any (groundContact nodePosition) } := by
  intro contacts
  induction contacts with
  | nil =>
    intro ch
    simp [Character.HandleNodeCollision]
  | cons c cs ih =>
    intro ch
    have h1 : Character.HandleNodeCollision nodePosition (c :: cs) ch
        = Character.HandleNodeCollision nodePosition cs
            (if c.position.y < nodePosition.y + 1 then
              if 3 / 4 < |c.normal.y| then { ch with onGround := true } else ch
             else ch) := rfl
    rw [h1, ih]
    by_cases hpos : c.position.y < nodePosition.y + 1
    · by_cases hnorm : 3 / 4 < |c.normal.y|
      · simp [hpos, hnorm, groundContact]
      · simp [hpos, hnorm, groundContact]
    · simp [hpos, groundContact]

/-- C1: Character::HandleNodeCollision leaves onGround_ true exactly
when it was already true or some contact in the buffer lies below the
node position's y plus 1.0 with a contact normal whose absolute y
component exceeds 0.75; when entered with onGround_ false it sets it to
true if and only if such a contact exists, it never sets it to false,
and it writes no other character field. -/
theorem handleNodeCollision_ground_detection (nodePosition : Vec3)
    (contacts : List Contact) (ch : Character) :
    (Character.HandleNodeCollision nodePosition contacts ch).onGround
        = (ch.onGround || contacts.any (groundContact nodePosition))
    ∧ (ch.onGround = false →
        ((Character.HandleNodeCollision nodePosition contacts ch).onGround = true
          ↔ contacts.any (groundContact nodePosition) = true))
    ∧ (ch.onGround = true →
        (Character.HandleNodeCollision nodePosition contacts ch).onGround = true)
    ∧ (Character.HandleNodeCollision nodePosition contacts ch).controls = ch.controls
    ∧ (Character.HandleNodeCollision nodePosition contacts ch).okToJump = ch.okToJump
    ∧ (Character.HandleNodeCollision nodePosition contacts ch).onLeftLane = ch.onLeftLane
    ∧ (Character.HandleNodeCollision nodePosition contacts ch).onMiddleLane = ch.onMiddleLane
    ∧ (Character.HandleNodeCollision nodePosition contacts ch).onRightLane = ch.onRightLane
    ∧ (Character.HandleNodeCollision nodePosition contacts ch).inAirTimer = ch.inAirTimer := by
  rw [handleNodeCollision_eq]
  refine ⟨rfl, ?_, ?_, rfl, rfl, rfl, rfl, rfl, rfl⟩
  · intro h
    simp [h]
  · intro h
    simp [h]

/-- Witness for C1 at a concrete input: starting not grounded, a single
contact at the origin with a vertical normal below a node at height one
grounds the character. -/
theorem handleNodeCollision_ground_detection_witness :
    (Character.HandleNodeCollision ⟨0, 1, 0⟩
        [⟨⟨0, 0, 0⟩, ⟨0, 1, 0⟩, 0, 0⟩] Character.defaults).onGround = true
      ↔ [(⟨⟨0, 0, 0⟩, ⟨0, 1, 0⟩, 0, 0⟩ : Contact)].any (groundContact ⟨0, 1, 0⟩) = true :=
  (handleNodeCollision_ground_detection ⟨0, 1, 0⟩
    [⟨⟨0, 0, 0⟩, ⟨0, 1, 0⟩, 0, 0⟩] Character.defaults).2.1 rfl

/-- C9: every Character::FixedUpdate call creates exactly one UI text
element on the UI root and removes none, so the number of UI root
children grows by one per fixed step. -/
theorem fixedUpdate_creates_ui_text (env : FixedEnv) (ch : Character)
    (uiRootChildren : ℕ) :
    (Character.FixedUpdate env ch).2.textsCreated = 1
    ∧ (Character.FixedUpdate env ch).2.textsRemoved = 0
    ∧ uiRootChildren + (Character.FixedUpdate env ch).2.textsCreated
        - (Character.FixedUpdate env ch).2.textsRemoved = uiRootChildren + 1 :=
  ⟨rfl, rfl, rfl⟩

/-- The three lane flags of a character, for stating that no active
code path writes them. -/
def laneFlags (ch : Character) : Bool × Bool × Bool :=
  (ch.onLeftLane, ch.onMiddleLane, ch.onRightLane)

/-- Environment for MainScene::HandleUpdate with no touch utility, no
focused element, no keys and no camera or Jack-node lookup results. -/
def envNoKeys : UpdateEnv :=
  { touchActive := false, useGyroscope := false, touchEnabled := false
    focusElement := false, keyA := false, keyD := false, keySpace := false
    keyPressG := false, keyPressF5 := false, keyPressF7 := false
    touchedElements := [], camera := Option.none, jackNode := Option.none }

/-- C5: the lane flags are never written by any active code path — the
registered defaults are left false, middle true, right false, and
Character::FixedUpdate, Character::HandleNodeCollision,
MainScene::HandleUpdate (on the character it updates, i.e. when no
scene load replaces the pointed-to component) and
MainScene::HandlePostUpdate all leave every lane flag unchanged, so no
active code can enforce the at-most-one-lane invariant. -/
theorem lane_flags_never_written :
    (Character.defaults.onLeftLane = false
      ∧ Character.defaults.onMiddleLane = true
      ∧ Character.defaults.onRightLane = false)
    ∧ (∀ (env : FixedEnv) (ch : Character),
        laneFlags (Character.FixedUpdate env ch).1 = laneFlags ch)
    ∧ (∀ (nodePosition : Vec3) (contacts : List Contact) (ch : Character),
        laneFlags (Character.HandleNodeCollision nodePosition contacts ch) = laneFlags ch)
    ∧ (∀ (updateTouches : Controls → Controls) (env : UpdateEnv) (ch : Character),
        env.keyPressF7 = false →
        Option.map laneFlags (MainScene.HandleUpdate updateTouches env (some ch)).1
          = some (laneFlags ch))
    ∧ (∀ (angleAxis : ℚ → Vec3 → Quat) (env : PostEnv) (character : Option Character),
        (MainScene.HandlePostUpdate angleAxis env character).1 = character) := by
  refine ⟨⟨rfl, rfl, rfl⟩, fun env ch => rfl, ?_, ?_, ?_⟩
  · intro nodePosition contacts ch
    rw [handleNodeCollision_eq]
    rfl
  · intro updateTouches env ch hF7
    simp only [MainScene.HandleUpdate]
    by_cases hfocus : env.focusElement = true
    · simp [hfocus, laneFlags]
    · simp only [Bool.not_eq_true] at hfocus
      simp only [hfocus, if_neg Bool.false_ne_true]
      by_cases hearly : (env.touchEnabled && env.touchedElements.any (fun touched => !touched)
          && env.camera.isNone) = true
      · simp [hearly, laneFlags]
      · simp [hearly, hF7, laneFlags]
  · intro angleAxis env character
    cases character with
    | none => rfl
    | some ch => cases h : env.headNode <;> simp [MainScene.HandlePostUpdate, h]

/-- Witness for C5 at a concrete input: an update with no keys pressed
keeps the default character's lane flags. -/
theorem lane_flags_never_written_witness :
    Option.map laneFlags
        (MainScene.HandleUpdate (fun c => c) envNoKeys (some Character.defaults)).1
      = some (laneFlags Character.defaults) :=
  lane_flags_never_written.2.2.2.1 (fun c => c) envNoKeys Character.defaults rfl

/-- Angle-axis quaternion constructor stand-in used by concrete
witnesses: the identity rotation for every angle and axis. -/
def idAngleAxis : ℚ → Vec3 → Quat := fun _ _ => ⟨1, 0, 0, 0⟩

/-- Post-update environment with no head-bone lookup result, no touch
camera distance and a missed raycast. -/
def envPostNoHead : PostEnv :=
  { charNodePosition := ⟨0, 0, 0⟩, charNodeRotation := ⟨1, 0, 0, 0⟩
    headNode := Option.none, touchCameraDistance := Option.none
    raycastHit := Option.none }

/-- C6: lookups are unchecked — a null Bip01_Head child lookup makes
MainScene::HandlePostUpdate crash on an unguarded dereference (while a
dead character merely returns early), Character::FixedUpdate cannot run
when either unchecked GetComponent result (rigid body or animation
controller) is missing, and a null camera component during an
empty-space touch makes MainScene::HandleUpdate return silently and
normally, skipping the rest of the handler. -/
theorem unchecked_lookups :
    (∀ (angleAxis : ℚ → Vec3 → Quat) (env : PostEnv) (ch : Character),
        env.headNode = Option.none →
        (MainScene.HandlePostUpdate angleAxis env (some ch)).2 = PostOutcome.crash)
    ∧ (∀ (angleAxis : ℚ → Vec3 → Quat) (env : PostEnv),
        (MainScene.HandlePostUpdate angleAxis env Option.none).2 = PostOutcome.skipped)
    ∧ (∀ (body animCtrl : Option Unit) (env : FixedEnv) (ch : Character),
        body = Option.none ∨ animCtrl = Option.none →
        Character.FixedUpdateChecked body animCtrl env ch = Option.none)
    ∧ (∀ (updateTouches : Controls → Controls) (env : UpdateEnv) (ch : Character),
        env.focusElement = false → env.touchEnabled = true →
        env.touchedElements.any (fun touched => !touched) = true →
        env.camera = Option.none →
        (MainScene.HandleUpdate updateTouches env (some ch)).2 = UpdateEffects.none
          ∧ ((MainScene.HandleUpdate updateTouches env (some ch)).1).isSome = true) := by
  refine ⟨?_, fun angleAxis env => rfl, ?_, ?_⟩
  · intro angleAxis env ch hhead
    simp [MainScene.HandlePostUpdate, hhead]
  · intro body animCtrl env ch h
    rcases h with h | h
    · subst h; cases animCtrl <;> rfl
    · subst h; cases body <;> rfl
  · intro updateTouches env ch hfocus htouch hany hcam
    constructor <;> simp [MainScene.HandleUpdate, hfocus, htouch, hany, hcam]

/-- Witness for C6 at a concrete input: with the head-bone lookup
returning null, the post-update handler crashes. -/
theorem unchecked_lookups_witness :
    (MainScene.HandlePostUpdate idAngleAxis envPostNoHead (some Character.defaults)).2
      = PostOutcome.crash :=
  unchecked_lookups.1 idAngleAxis envPostNoHead Character.defaults rfl

lemma jumpApplied_eq (env : FixedEnv) (ch : Character) :
    (Character.FixedUpdate env ch).2.jumpApplied
      = (softGroundedOf env ch && ch.controls.IsDown CTRL_JUMP && ch.okToJump) := rfl

lemma okToJump_update (env : FixedEnv) (ch : Character) :
    (Character.FixedUpdate env ch).1.okToJump
      = (if softGroundedOf env ch then !(ch.controls.IsDown CTRL_JUMP) else ch.okToJump) := by
  have h : (Character.FixedUpdate env ch).1.okToJump
      = (if softGroundedOf env ch then
          if ch.controls.IsDown CTRL_JUMP then
            if ch.okToJump then false else ch.okToJump
          else true
        else ch.okToJump) := rfl
  rw [h]
  cases hok : ch.okToJump <;> cases hjd : ch.controls.IsDown CTRL_JUMP <;>
    cases hsg : softGroundedOf env ch <;> simp

lemma fired_conditions (env : FixedEnv) (ch : Character)
    (h : (Character.FixedUpdate env ch).2.jumpApplied = true) :
    softGroundedOf env ch = true ∧ ch.controls.IsDown CTRL_JUMP = true
      ∧ ch.okToJump = true := by
  rw [jumpApplied_eq] at h
  simp only [Bool.and_eq_true] at h
  exact ⟨h.1.1, h.1.2, h.2⟩

lemma withButtons_okToJump (b : Nat) (ch : Character) :
    (withButtons b ch).okToJump = ch.okToJump := rfl

lemma stateAt_succ (steps : ℕ → FixedStep) (ch : Character) (n : ℕ) :
    stateAt steps ch (n + 1)
      = (Character.FixedUpdate (steps n).env
          (withButtons (steps n).buttons (stateAt steps ch n))).1 := rfl

lemma okToJump_rises (steps : ℕ → FixedStep) (ch : Character) :
    ∀ m n, n ≤ m → (stateAt steps ch n).okToJump = false →
      (stateAt steps ch m).okToJump = true →
      ∃ k, n ≤ k ∧ k < m ∧ releasedAt steps ch k = true := by
  intro m
  induction m with
  | zero =>
    intro n hn hfalse htrue
    have h0 : n = 0 := Nat.le_zero.mp hn
    rw [h0] at hfalse
    rw [hfalse] at htrue
    exact absurd htrue (by simp)
  | succ m ih =>
    intro n hn hfalse htrue
    have hne : n ≠ m + 1 := by
      intro h
      rw [h] at hfalse
      rw [hfalse] at htrue
      exact absurd htrue (by simp)
    have hnm : n ≤ m := by omega
    by_cases hm : (stateAt steps ch m).okToJump = true
    · obtain ⟨k, h1, h2, h3⟩ := ih n hnm hfalse hm
      exact ⟨k, h1, Nat.lt_succ_of_lt h2, h3⟩
    · have hmfalse : (stateAt steps ch m).okToJump = false := by
        simpa using hm
      have heq := okToJump_update (steps m).env
        (withButtons (steps m).buttons (stateAt steps ch m))
      rw [stateAt_succ, heq] at htrue
      by_cases hsoft : softGroundedOf (steps m).env
          (withButtons (steps m).buttons (stateAt steps ch m)) = true
      · rw [if_pos hsoft] at htrue
        refine ⟨m, hnm, Nat.lt_succ_self m, ?_⟩
        unfold releasedAt
        rw [hsoft, htrue]
        rfl
      · rw [if_neg hsoft, withButtons_okToJump, hmfalse] at htrue
        exact absurd htrue (by simp)

/-- C2: the jump debounce of Character::FixedUpdate — in a single step
the jump impulse is applied only when the character is soft-grounded,
CTRL_JUMP is down and okToJump_ is true; applying it leaves okToJump_
false, and from false okToJump_ becomes true again exactly in a
soft-grounded step with CTRL_JUMP not down; consequently, along any
sequence of fixed updates, two jump impulses are always separated by a
soft-grounded step in which the jump control is released. -/
theorem fixedUpdate_jump_debounce :
    (∀ (env : FixedEnv) (ch : Character),
        ((Character.FixedUpdate env ch).2.jumpApplied = true →
          softGroundedOf env ch = true ∧ ch.controls.IsDown CTRL_JUMP = true
            ∧ ch.okToJump = true)
      ∧ ((Character.FixedUpdate env ch).2.jumpApplied = true →
          (Character.FixedUpdate env ch).1.okToJump = false)
      ∧ (ch.okToJump = false →
          ((Character.FixedUpdate env ch).1.okToJump = true
            ↔ softGroundedOf env ch = true ∧ ch.controls.IsDown CTRL_JUMP = false)))
    ∧ (∀ (steps : ℕ → FixedStep) (ch : Character) (i j : ℕ),
        i < j → firedAt steps ch i = true → firedAt steps ch j = true →
        ∃ k, i < k ∧ k < j ∧ releasedAt steps ch k = true) := by
  constructor
  · intro env ch
    refine ⟨fired_conditions env ch, ?_, ?_⟩
    · intro h
      obtain ⟨hsoft, hjd, _⟩ := fired_conditions env ch h
      rw [okToJump_update, if_pos hsoft, hjd]
      rfl
    · intro hok
      rw [okToJump_update]
      cases hsg : softGroundedOf env ch <;>
        cases hjd : ch.controls.IsDown CTRL_JUMP <;> simp [hok]
  · intro steps ch i j hij hi hj
    have hfi := fired_conditions (steps i).env
      (withButtons (steps i).buttons (stateAt steps ch i)) hi
    have hfalse : (stateAt steps ch (i + 1)).okToJump = false := by
      rw [stateAt_succ, okToJump_update, if_pos hfi.1, hfi.2.1]
      rfl
    have hfj := fired_conditions (steps j).env
      (withButtons (steps j).buttons (stateAt steps ch j)) hj
    have htrue : (stateAt steps ch j).okToJump = true := by
      rw [← withButtons_okToJump (steps j).buttons]
      exact hfj.2.2
    obtain ⟨k, h1, h2, h3⟩ := okToJump_rises steps ch j (i + 1) hij hfalse htrue
    exact ⟨k, Nat.lt_of_succ_le h1, h2, h3⟩

/-- Fixed-update engine inputs for witnesses: zero time step, identity
rotation, zero velocity. -/
def envFixedW : FixedEnv :=
  { timeStep := 0, rotation := ⟨1, 0, 0, 0⟩, velocity := ⟨0, 0, 0⟩, uiRootHeight := 0 }

/-- Witness trace for C2: jump held in every step except step 1, where
it is released. -/
def stepsW : ℕ → FixedStep :=
  fun n => if n = 1 then ⟨0, envFixedW⟩ else ⟨CTRL_JUMP, envFixedW⟩

/-- Witness for C2 at a concrete trace: the jump fires in steps 0 and 2
of the witness trace, so some step strictly between them releases the
jump control while soft-grounded. -/
theorem fixedUpdate_jump_debounce_witness :
    ∃ k, 0 < k ∧ k < 2 ∧ releasedAt stepsW Character.defaults k = true :=
  fixedUpdate_jump_debounce.2 stepsW Character.defaults 0 2 (by decide)
    (by simp [firedAt, stateAt, applyStep, withButtons, stepsW, envFixedW,
      Character.FixedUpdate, Character.defaults, softGroundedOf, Controls.IsDown,
      CTRL_JUMP, CTRL_FORWARD, CTRL_LEFT, CTRL_RIGHT, INAIR_THRESHOLD_TIME])
    (by simp [firedAt, stateAt, applyStep, withButtons, stepsW, envFixedW,
      Character.FixedUpdate, Character.defaults, softGroundedOf, Controls.IsDown,
      CTRL_JUMP, CTRL_FORWARD, CTRL_LEFT, CTRL_RIGHT, INAIR_THRESHOLD_TIME])

/-- The movement direction described by the spec: the sum of the
contributions of the CTRL_FORWARD, CTRL_LEFT and CTRL_RIGHT control
flags. -/
def moveDirOf (c : Controls) : Vec3 :=
  ((if c.IsDown CTRL_FORWARD then Vec3.FORWARD else Vec3.ZERO).add
    (if c.IsDown CTRL_LEFT then Vec3.LEFT else Vec3.ZERO)).add
    (if c.IsDown CTRL_RIGHT then Vec3.RIGHT else Vec3.ZERO)

/-- The movement direction after the conditional normalization the
spec describes: normalized exactly when its squared length is
positive. -/
def normalizedMoveDir (c : Controls) : Vec3 :=
  if 0 < (moveDirOf c).lengthSquared then (moveDirOf c).normalize else moveDirOf c

/-- C3: in every Character::FixedUpdate step the impulses applied to
the rigid body are exactly one movement impulse — the rotated,
conditionally normalized movement direction scaled by MOVE_FORCE when
soft-grounded and by INAIR_MOVE_FORCE otherwise — followed, only when
soft-grounded, by the braking impulse equal to minus the XZ-plane
velocity times BRAKE_FORCE (and by the jump impulse when the jump
fires). -/
theorem fixedUpdate_movement_impulses (env : FixedEnv) (ch : Character) :
    (Character.FixedUpdate env ch).2.impulses
      = Vec3.smul (if softGroundedOf env ch then MOVE_FORCE else INAIR_MOVE_FORCE)
          (env.rotation.rotate (normalizedMoveDir ch.controls))
        :: (if softGroundedOf env ch then
              Vec3.smul BRAKE_FORCE (Vec3.neg ⟨env.velocity.x, 0, env.velocity.z⟩)
                :: (if ch.controls.IsDown CTRL_JUMP && ch.okToJump then
                      [Vec3.smul JUMP_FORCE Vec3.UP]
                    else [])
            else []) := by
  cases hF : ch.controls.IsDown CTRL_FORWARD <;>
    cases hR : ch.controls.IsDown CTRL_RIGHT <;>
      cases hL : ch.controls.IsDown CTRL_LEFT <;>
        simp [Character.FixedUpdate, moveDirOf, normalizedMoveDir, hF, hR, hL,
          softGroundedOf, Vec3.add, Vec3.ZERO, Vec3.FORWARD, Vec3.LEFT,
          Vec3.RIGHT, Vec3.normalize, Vec3.lengthSquared, Vec3.smul]

/-- The camera follow distance before raycast correction, as the spec
describes it: the touch utility's camera distance when active,
otherwise the initial camera distance. -/
def desiredCameraDistance (env : PostEnv) : ℚ :=
  env.touchCameraDistance.getD CAMERA_INITIAL_DIST

/-- The final camera distance as the spec describes it: the desired
distance, reduced by the raycast hit distance only when the raycast
returned a body, then clamped to the camera range. -/
def cameraRayDistance (env : PostEnv) : ℚ :=
  clampQ
    (match env.raycastHit with
      | some d => min (desiredCameraDistance env) d
      | Option.none => desiredCameraDistance env)
    CAMERA_MIN_DIST CAMERA_MAX_DIST

/-- The yaw-pitch camera direction as the spec describes it: the node
rotation composed with the pitch rotation about the right axis. -/
def cameraLookDir (angleAxis : ℚ → Vec3 → Quat) (env : PostEnv) (ch : Character) : Quat :=
  env.charNodeRotation.mul (angleAxis ch.controls.pitch Vec3.RIGHT)

/-- The camera aim point as the spec describes it: the character
position raised by the rotated (0, 1.7, 0) offset. -/
def cameraAimPoint (env : PostEnv) : Vec3 :=
  env.charNodePosition.add (env.charNodeRotation.rotate ⟨0, 17 / 10, 0⟩)

/-- C4: with a live character (and the head bone found, without which
the handler crashes first), MainScene::HandlePostUpdate places the
camera at aimPoint + rayDir * rayDistance and sets its rotation to the
yaw-pitch direction, where the ray distance starts from the desired
follow distance, is min-reduced by the raycast hit distance only when
the raycast returned a non-null body — a missed raycast leaves it as
desired — and is clamped between CAMERA_MIN_DIST and CAMERA_MAX_DIST. -/
theorem handlePostUpdate_camera (angleAxis : ℚ → Vec3 → Quat) (env : PostEnv)
    (ch : Character) (hp : Vec3) (hhead : env.headNode = some hp) :
    (MainScene.HandlePostUpdate angleAxis env (some ch)).2
      = PostOutcome.ok
          { headWorldTarget := hp.add
              ((env.charNodeRotation.mul
                (angleAxis (clampQ ch.controls.pitch (-45) 45) ⟨1, 0, 0⟩)).rotate ⟨0, 0, 1⟩)
            headLookUp := ⟨0, 1, 0⟩
            headCorrectionEuler := ⟨0, 90, 90⟩
            cameraPosition := (cameraAimPoint env).add
              (Vec3.smul (cameraRayDistance env)
                ((cameraLookDir angleAxis env ch).rotate Vec3.BACK))
            cameraRotation := cameraLookDir angleAxis env ch }
    ∧ (env.raycastHit = Option.none →
        cameraRayDistance env
          = clampQ (desiredCameraDistance env) CAMERA_MIN_DIST CAMERA_MAX_DIST)
    ∧ (∀ d : ℚ, env.raycastHit = some d →
        cameraRayDistance env
          = clampQ (min (desiredCameraDistance env) d) CAMERA_MIN_DIST CAMERA_MAX_DIST) := by
  refine ⟨?_, ?_, ?_⟩
  · simp only [MainScene.HandlePostUpdate, hhead]
    simp [cameraRayDistance, cameraLookDir, cameraAimPoint, desiredCameraDistance]
  · intro h
    simp [cameraRayDistance, h]
  · intro d h
    simp [cameraRayDistance, h]

/-- Post-update environment for the C4 witness: head bone at the
origin, no touch utility, missed raycast. -/
def envPostW : PostEnv :=
  { charNodePosition := ⟨0, 0, 0⟩, charNodeRotation := ⟨1, 0, 0, 0⟩
    headNode := some ⟨0, 0, 0⟩, touchCameraDistance := Option.none
    raycastHit := Option.none }

/-- Witness for C4 at a concrete input: with a missed raycast the final
camera distance is the clamped desired distance. -/
theorem handlePostUpdate_camera_witness :
    cameraRayDistance envPostW
      = clampQ (desiredCameraDistance envPostW) CAMERA_MIN_DIST CAMERA_MAX_DIST :=
  (handlePostUpdate_camera idAngleAxis envPostW Character.defaults ⟨0, 0, 0⟩ rfl).2.1 rfl

lemma or_ne_zero_right (x f : ℕ) (hf : f ≠ 0) : x ||| f ≠ 0 := by
  obtain ⟨i, hi⟩ := Nat.ne_zero_implies_bit_true hf
  intro h
  have hbit := Nat.testBit_or x f i
  rw [h] at hbit
  simp [hi] at hbit

lemma Controls.set_false_buttons (c : Controls) (f : ℕ) :
    (c.Set f false).buttons = c.buttons ^^^ (c.buttons &&& f) := rfl

lemma Controls.set_true_buttons (c : Controls) (f : ℕ) :
    (c.Set f true).buttons = c.buttons ||| f := rfl

lemma Controls.isDown_set_self (c : Controls) (f : ℕ) (d : Bool) (hf : f ≠ 0) :
    (c.Set f d).IsDown f = d := by
  cases d
  · simp only [Controls.IsDown, Controls.set_false_buttons]
    have h0 : (c.buttons ^^^ c.buttons &&& f) &&& f = 0 := by
      rw [Nat.and_xor_distrib_right, Nat.and_assoc, Nat.and_self, Nat.xor_self]
    simp [h0]
  · simp only [Controls.IsDown, Controls.set_true_buttons]
    have h1 : (c.buttons ||| f) &&& f = (c.buttons &&& f) ||| f := by
      rw [Nat.and_distrib_right, Nat.and_self]
    simp only [h1, decide_eq_true_eq]
    exact or_ne_zero_right _ f hf

lemma Controls.isDown_set_other (c : Controls) (f g : ℕ) (d : Bool)
    (hfg : f &&& g = 0) : (c.Set f d).IsDown g = c.IsDown g := by
  cases d
  · simp only [Controls.IsDown, Controls.set_false_buttons]
    have h0 : (c.buttons ^^^ c.buttons &&& f) &&& g = c.buttons &&& g := by
      rw [Nat.and_xor_distrib_right, Nat.and_assoc, hfg, Nat.and_zero, Nat.xor_zero]
    simp [h0]
  · simp only [Controls.IsDown, Controls.set_true_buttons]
    have h1 : (c.buttons ||| f) &&& g = c.buttons &&& g := by
      rw [Nat.and_distrib_right, hfg, Nat.or_zero]
    simp [h1]

lemma Controls.isDown_clear_sub (c : Controls) (f g : ℕ) (hsub : f &&& g = g) :
    (c.Set f false).IsDown g = false := by
  simp only [Controls.IsDown, Controls.set_false_buttons]
  have h0 : (c.buttons ^^^ c.buttons &&& f) &&& g = 0 := by
    rw [Nat.and_xor_distrib_right, Nat.and_assoc, hsub, Nat.xor_self]
  simp [h0]

lemma Controls.isDown_set_pitch (c : Controls) (p : ℚ) (f : ℕ) :
    ({ c with pitch := p } : Controls).IsDown f = c.IsDown f := rfl

lemma clampQ_mem (v lo hi : ℚ) (h : lo ≤ hi) :
    lo ≤ clampQ v lo hi ∧ clampQ v lo hi ≤ hi := by
  unfold clampQ
  split_ifs with h1 h2 <;> constructor <;> linarith

/-- C7: the scene is saved and loaded only through the two debug key
bindings of MainScene::HandleUpdate — with a live character and a
camera component present, the scene is written as XML to the
CharacterDemo.xml path exactly when no UI element is focused and F5 is
pressed, loaded from the same path exactly when no UI element is
focused and F7 is pressed, and after a load the character weak pointer
is reacquired from the Jack child node only when that node is found;
with a dead character the handler saves and loads nothing. -/
theorem handleUpdate_scene_save_load :
    (∀ (updateTouches : Controls → Controls) (env : UpdateEnv) (ch : Character),
        env.camera.isSome = true →
        ((MainScene.HandleUpdate updateTouches env (some ch)).2.savedSceneTo
            = if env.focusElement = false ∧ env.keyPressF5 = true then some scenePath
              else Option.none)
        ∧ ((MainScene.HandleUpdate updateTouches env (some ch)).2.loadedSceneFrom
            = if env.focusElement = false ∧ env.keyPressF7 = true then some scenePath
              else Option.none)
        ∧ (env.focusElement = false → env.keyPressF7 = true →
            (MainScene.HandleUpdate updateTouches env (some ch)).1
              = env.jackNode.getD Option.none))
    ∧ (∀ (updateTouches : Controls → Controls) (env : UpdateEnv),
        MainScene.HandleUpdate updateTouches env Option.none
          = (Option.none, UpdateEffects.none)) := by
  constructor
  · intro updateTouches env ch hcam
    cases hc : env.camera with
    | none => rw [hc] at hcam; exact absurd hcam (by simp)
    | some u =>
      by_cases hfocus : env.focusElement = true
      · refine ⟨?_, ?_, ?_⟩
        · simp [MainScene.HandleUpdate, hfocus, UpdateEffects.none]
        · simp [MainScene.HandleUpdate, hfocus, UpdateEffects.none]
        · intro hf
          rw [hf] at hfocus
          exact absurd hfocus (by simp)
      · have hf : env.focusElement = false := by simpa using hfocus
        refine ⟨?_, ?_, ?_⟩
        · simp [MainScene.HandleUpdate, hf, hc]
        · simp [MainScene.HandleUpdate, hf, hc]
        · intro _ hF7
          cases hj : env.jackNode <;>
            simp [MainScene.HandleUpdate, hf, hc, hF7, hj]
  · intro updateTouches env
    rfl

/-- Update environment for the C7 witness: camera present, F5
pressed. -/
def envSaveW : UpdateEnv :=
  { envNoKeys with camera := some (), keyPressF5 := true }

/-- Witness for C7 at a concrete input: with no focused element and F5
pressed, the handler records a scene save to the snapshot path. -/
theorem handleUpdate_scene_save_load_witness :
    (MainScene.HandleUpdate (fun c => c) envSaveW (some Character.defaults)).2.savedSceneTo
      = if envSaveW.focusElement = false ∧ envSaveW.keyPressF5 = true then some scenePath
        else Option.none :=
  (handleUpdate_scene_save_load.1 (fun c => c) envSaveW Character.defaults rfl).1

/-- A loaded character whose attributes come from the scene file, not
from this handler: no control buttons set, pitch 100. -/
def loadedJackW : Character :=
  { Character.defaults with controls := { buttons := 0, yaw := 0, pitch := 100 } }

/-- Update environment on which claim C8 fails: character alive, no
focused element, A key held, and the F7 load binding pressed with the
Jack node found in the loaded scene. -/
def envLoadW : UpdateEnv :=
  { envNoKeys with
    keyA := true
    keyPressF7 := true
    camera := some ()
    jackNode := some (some loadedJackW) }

/-- Counterexample to C8 as stated: in a HandleUpdate with the
character alive and no UI element focused, but with the F7 load binding
pressed, the resulting character's CTRL_FORWARD control is not down
(the handler's control writes went to the pre-load character, and the
reacquired one carries the loaded buttons), even though the A key is
down the loaded CTRL_LEFT is not. -/
theorem handleUpdate_controls_counterexample :
    envLoadW.focusElement = false
    ∧ envLoadW.keyA = true
    ∧ Option.map
        (fun c => (c.controls.IsDown CTRL_FORWARD, c.controls.IsDown CTRL_LEFT))
        (MainScene.HandleUpdate (fun c => c) envLoadW (some Character.defaults)).1
      = some (false, false) := by
  refine ⟨rfl, rfl, ?_⟩
  simp [MainScene.HandleUpdate, envLoadW, envNoKeys, loadedJackW, Controls.IsDown,
    Character.defaults, CTRL_FORWARD, CTRL_LEFT]

/-- C8 as amended: after every MainScene::HandleUpdate with a live
character, no focused UI element, the touch utility inactive and the
F7 load binding not pressed, CTRL_FORWARD is set down unconditionally,
CTRL_BACK is never set, and CTRL_LEFT, CTRL_RIGHT and CTRL_JUMP equal
the down-states of the A, D and Space keys (the W and S key reads are
commented out and no W/S input reaches the handler). -/
theorem handleUpdate_keyboard_controls (updateTouches : Controls → Controls)
    (env : UpdateEnv) (ch : Character)
    (htouch : env.touchActive = false) (hte : env.touchEnabled = false)
    (hfocus : env.focusElement = false) (hF7 : env.keyPressF7 = false) :
    Option.map
        (fun c => (c.controls.IsDown CTRL_FORWARD, c.controls.IsDown CTRL_BACK,
          c.controls.IsDown CTRL_LEFT, c.controls.IsDown CTRL_RIGHT,
          c.controls.IsDown CTRL_JUMP))
      (MainScene.HandleUpdate updateTouches env (some ch)).1
      = some (true, false, env.keyA, env.keyD, env.keySpace) := by
  simp only [MainScene.HandleUpdate, htouch, hte, hfocus, hF7, Bool.false_and,
    Bool.and_false, Bool.not_false, Bool.true_or, Bool.false_eq_true, if_false,
    if_true, Option.map_some', Option.some.injEq, Controls.isDown_set_pitch,
    Prod.mk.injEq]
  refine ⟨?_, ?_, ?_, ?_, ?_⟩
  · rw [Controls.isDown_set_self]
    all_goals decide
  · rw [Controls.isDown_set_other, Controls.isDown_set_other,
      Controls.isDown_set_other, Controls.isDown_set_other,
      Controls.isDown_clear_sub]
    all_goals decide
  · rw [Controls.isDown_set_other, Controls.isDown_set_other,
      Controls.isDown_set_other, Controls.isDown_set_self]
    all_goals decide
  · rw [Controls.isDown_set_other, Controls.isDown_set_other,
      Controls.isDown_set_self]
    all_goals decide
  · rw [Controls.isDown_set_other, Controls.isDown_set_self]
    all_goals decide

/-- Witness for the amended C8 at a concrete input: with no touch and
no keys held, the handler leaves forward down and everything else up. -/
theorem handleUpdate_keyboard_controls_witness :
    Option.map
        (fun c => (c.controls.IsDown CTRL_FORWARD, c.controls.IsDown CTRL_BACK,
          c.controls.IsDown CTRL_LEFT, c.controls.IsDown CTRL_RIGHT,
          c.controls.IsDown CTRL_JUMP))
      (MainScene.HandleUpdate (fun c => c) envNoKeys (some Character.defaults)).1
      = some (true, false, envNoKeys.keyA, envNoKeys.keyD, envNoKeys.keySpace) :=
  handleUpdate_keyboard_controls (fun c => c) envNoKeys Character.defaults
    rfl rfl rfl rfl

/-- Update environment on which claim C10 fails: like the C8
counterexample but with no keys held — F7 pressed, the loaded
character's pitch is 100. -/
def envLoadPitchW : UpdateEnv :=
  { envNoKeys with
    keyPressF7 := true
    camera := some ()
    jackNode := some (some loadedJackW) }

/-- Counterexample to C10 as stated: a HandleUpdate that reaches the
control-update branch (character alive, no focused element) but
presses F7 ends with the character pitch equal to the loaded value 100,
outside [-80, 80]. -/
theorem handleUpdate_pitch_counterexample :
    envLoadPitchW.focusElement = false
    ∧ Option.map (fun c => c.controls.pitch)
        (MainScene.HandleUpdate (fun c => c) envLoadPitchW (some Character.defaults)).1
      = some 100
    ∧ ¬((-80 : ℚ) ≤ 100 ∧ (100 : ℚ) ≤ 80) := by
  refine ⟨rfl, ?_, by norm_num⟩
  simp [MainScene.HandleUpdate, envLoadPitchW, envNoKeys, loadedJackW]

/-- C10 as amended: after every MainScene::HandleUpdate that reaches
the control-update branch (character alive, no focused UI element) with
the camera component present and the F7 load binding not pressed, the
character's pitch lies in [-80, 80]; and with the head bone found,
MainScene::HandlePostUpdate leaves the character untouched while the
head target uses the pitch clamped to [-45, 45]. -/
theorem handleUpdate_pitch_clamped (updateTouches : Controls → Controls)
    (env : UpdateEnv) (ch : Character)
    (hfocus : env.focusElement = false) (hF7 : env.keyPressF7 = false)
    (hcam : env.camera.isSome = true) :
    (((MainScene.HandleUpdate updateTouches env (some ch)).1).all
        (fun c => decide (-80 ≤ c.controls.pitch) && decide (c.controls.pitch ≤ 80)))
        = true
    ∧ ((MainScene.HandleUpdate updateTouches env (some ch)).1).isSome = true
    ∧ (∀ (angleAxis : ℚ → Vec3 → Quat) (penv : PostEnv) (hp : Vec3),
        penv.headNode = some hp →
        (MainScene.HandlePostUpdate angleAxis penv (some ch)).1 = some ch
        ∧ (-45 ≤ clampQ ch.controls.pitch (-45) 45
            ∧ clampQ ch.controls.pitch (-45) 45 ≤ 45)
        ∧ (MainScene.HandlePostUpdate angleAxis penv (some ch)).2
            = PostOutcome.ok
                { headWorldTarget := hp.add
                    ((penv.charNodeRotation.mul
                      (angleAxis (clampQ ch.controls.pitch (-45) 45) ⟨1, 0, 0⟩)).rotate
                        ⟨0, 0, 1⟩)
                  headLookUp := ⟨0, 1, 0⟩
                  headCorrectionEuler := ⟨0, 90, 90⟩
                  cameraPosition := (cameraAimPoint penv).add
                    (Vec3.smul (cameraRayDistance penv)
                      ((cameraLookDir angleAxis penv ch).rotate Vec3.BACK))
                  cameraRotation := cameraLookDir angleAxis penv ch }) := by
  cases hc : env.camera with
  | none => rw [hc] at hcam; exact absurd hcam (by simp)
  | some u =>
    refine ⟨?_, ?_, ?_⟩
    · simp only [MainScene.HandleUpdate, hfocus, hF7, hc]
      simp only [Bool.false_eq_true, if_false, Option.isNone_some, Bool.and_false,
        Option.all_some, Bool.and_eq_true, decide_eq_true_eq]
      exact clampQ_mem _ _ _ (by norm_num)
    · simp [MainScene.HandleUpdate, hfocus, hF7, hc]
    · intro angleAxis penv hp hhead
      refine ⟨?_, clampQ_mem _ _ _ (by norm_num), ?_⟩
      · simp [MainScene.HandlePostUpdate, hhead]
      · simp only [MainScene.HandlePostUpdate, hhead]
        simp [cameraRayDistance, cameraLookDir, cameraAimPoint, desiredCameraDistance]

/-- Update environment for the C10 witness: camera present, nothing
pressed. -/
def envCamW : UpdateEnv := { envNoKeys with camera := some () }

/-- Witness for the amended C10 at a concrete input: with the camera
present and F7 unpressed the updated character's pitch is in range. -/
theorem handleUpdate_pitch_clamped_witness :
    (((MainScene.HandleUpdate (fun c => c) envCamW (some Character.defaults)).1).all
        (fun c => decide (-80 ≤ c.controls.pitch) && decide (c.controls.pitch ≤ 80)))
      = true :=
  (handleUpdate_pitch_clamped (fun c => c) envCamW Character.defaults rfl rfl rfl).1

end Urho
